import Mathlib

/-!
Shallow embedding of `src/backend/datasets/fraud/train_fraud_model.py`, the
single training script of the repository, together with theorems checking the
specification's claims about it.

Modelling conventions:
* Python floats are modelled as real numbers (`ℝ`); `np.log1p`, `np.sqrt`,
  `np.sin`, `np.cos` become the corresponding real functions.
* A pandas data frame is modelled column-wise; a column that may be absent is
  an `Option` (accessing an absent column raises `KeyError`, modelled as
  `Except.error` carrying the missing column's name).
* Feature matrices are stored column-major (`List (List ℝ)`, one inner list
  per feature column), which matches how the scaler computes per-column
  statistics along axis 0.
* `sklearn.preprocessing.LabelEncoder` and `StandardScaler` semantics are
  embedded from their documented behaviour: the encoder's classes are the
  sorted distinct observed values, `transform` raises on an unseen value, and
  the scaler divides by the per-column population standard deviation, with a
  zero standard deviation replaced by 1.
-/

namespace FraudTrain

/-- Configuration constant `TEST_SIZE = 0.2` (line 30 of the script). -/
def TEST_SIZE : ℚ := 0.2

/-- Configuration constant `RANDOM_STATE = 42` (line 31). -/
def RANDOM_STATE : ℕ := 42

/-- Hyperparameter `N_ESTIMATORS = 150` (line 34). -/
def N_ESTIMATORS : ℕ := 150

/-- Hyperparameter `MAX_DEPTH = 15` (line 35). -/
def MAX_DEPTH : ℕ := 15

/-- Hyperparameter `MIN_SAMPLES_SPLIT = 20` (line 36). -/
def MIN_SAMPLES_SPLIT : ℕ := 20

/-- Hyperparameter `MIN_SAMPLES_LEAF = 10` (line 37). -/
def MIN_SAMPLES_LEAF : ℕ := 10

/-- Raw input table (one `Option` per expected CSV column; `none` models an
absent column, so that reading it raises a `KeyError`). -/
structure RawTable where
  amount? : Option (List ℝ)
  hour? : Option (List ℤ)
  transaction_type? : Option (List String)
  merchant_category? : Option (List String)
  country? : Option (List String)
  device_risk_score? : Option (List ℝ)
  ip_risk_score? : Option (List ℝ)
  is_fraud? : Option (List ℕ)

/-- Row-level transform for the `amount_log` column: `np.log1p(amount)`
(line 82). -/
noncomputable def amount_log (a : ℝ) : ℝ := Real.log (1 + a)

/-- Row-level transform for the `amount_sqrt` column: `np.sqrt(amount)`
(line 83). -/
noncomputable def amount_sqrt (a : ℝ) : ℝ := Real.sqrt a

/-- Row-level transform for the `hour_sin` column:
`np.sin(2 * np.pi * hour / 24)` (line 86). -/
noncomputable def hour_sin (h : ℤ) : ℝ := Real.sin (2 * Real.pi * (h : ℝ) / 24)

/-- Row-level transform for the `hour_cos` column:
`np.cos(2 * np.pi * hour / 24)` (line 87). -/
noncomputable def hour_cos (h : ℤ) : ℝ := Real.cos (2 * Real.pi * (h : ℝ) / 24)

/-- Row-level transform for the `is_night` flag:
`((hour >= 0) & (hour <= 6) | (hour >= 22)).astype(int)` (line 88). -/
def is_night (h : ℤ) : ℤ := if (0 ≤ h ∧ h ≤ 6) ∨ 22 ≤ h then 1 else 0

/-- Row-level transform for the `is_business_hours` flag:
`((hour >= 9) & (hour <= 17)).astype(int)` (line 89). -/
def is_business_hours (h : ℤ) : ℤ := if 9 ≤ h ∧ h ≤ 17 then 1 else 0

/-- Row-level transform for `risk_score_product` (line 108). -/
noncomputable def risk_score_product (d i : ℝ) : ℝ := d * i

/-- Row-level transform for `risk_score_avg` (line 109). -/
noncomputable def risk_score_avg (d i : ℝ) : ℝ := (d + i) / 2

/-- Row-level transform for `risk_score_max` (line 110). -/
noncomputable def risk_score_max (d i : ℝ) : ℝ := max d i

/-- Insert a string into a list, keeping it sorted. -/
def insSorted (s : String) : List String → List String
  | [] => [s]
  | c :: cs => if s ≤ c then s :: c :: cs else c :: insSorted s cs

/-- Insertion sort on strings. -/
def sortStrings : List String → List String
  | [] => []
  | c :: cs => insSorted c (sortStrings cs)

/-- Classes assigned by `LabelEncoder.fit`: the sorted distinct observed
values (documented `np.unique` behaviour of sklearn's `LabelEncoder`,
invoked at line 97 of the script). -/
def fitClasses (col : List String) : List String := sortStrings col.dedup

/-- First index of `s` in a class list, if present. -/
def findIdx2 (s : String) : List String → Option ℕ
  | [] => none
  | c :: cs => if c = s then some 0 else (findIdx2 s cs).map (· + 1)

/-- `LabelEncoder.transform` on a single value: the index of the value among
the fitted classes; a value unseen at fit time raises `ValueError`, modelled
as `Except.error`. -/
def le_transform (classes : List String) (s : String) : Except String ℕ :=
  match findIdx2 s classes with
  | some i => .ok i
  | none => .error "unseen label"

/-- `n`-th element of a class list, if in range. -/
def nth : List String → ℕ → Option String
  | [], _ => none
  | c :: _, 0 => some c
  | _ :: cs, n + 1 => nth cs n

/-- `LabelEncoder.inverse_transform` on a single index: `classes_[i]`. -/
def le_inverse_transform (classes : List String) (i : ℕ) : Option String :=
  nth classes i

/-- `LabelEncoder.fit_transform` on a whole column: each value is replaced by
its index among the fitted classes (always present, since the classes were
fitted on this very column; `getD 0` is unreachable). -/
def le_fit_transform (col : List String) : List ℕ :=
  col.map (fun s => (findIdx2 s (fitClasses col)).getD 0)

/-- The three fitted encoders saved by `feature_engineering`
(lines 92–103), each represented by its class list. -/
structure Encoders where
  transaction_type : List String
  merchant_category : List String
  country : List String

/-- Engineered table produced by `feature_engineering`: the raw numeric
columns plus the derived columns, all as float columns (pandas upcasts the
selected matrix to float), along with the pass-through `is_fraud` column. -/
structure EngTable where
  amount : List ℝ
  amount_log : List ℝ
  amount_sqrt : List ℝ
  hour : List ℝ
  hour_sin : List ℝ
  hour_cos : List ℝ
  is_night : List ℝ
  is_business_hours : List ℝ
  transaction_type_encoded : List ℝ
  merchant_category_encoded : List ℝ
  country_encoded : List ℝ
  device_risk_score : List ℝ
  ip_risk_score : List ℝ
  risk_score_product : List ℝ
  risk_score_avg : List ℝ
  risk_score_max : List ℝ
  is_fraud? : Option (List ℕ)

/-- `feature_engineering` (lines 73–114): derives the engineered columns from
the raw columns and fits the three label encoders. Each raw column is read in
source order; reading an absent column raises `KeyError` with the column's
name. The `is_fraud` column is never read here. -/
noncomputable def feature_engineering (df : RawTable) :
    Except String (EngTable × Encoders) :=
  match df.amount? with
  | none => .error "amount"
  | some a =>
  match df.hour? with
  | none => .error "hour"
  | some ho =>
  match df.transaction_type? with
  | none => .error "transaction_type"
  | some tt =>
  match df.merchant_category? with
  | none => .error "merchant_category"
  | some mc =>
  match df.country? with
  | none => .error "country"
  | some co =>
  match df.device_risk_score? with
  | none => .error "device_risk_score"
  | some dr =>
  match df.ip_risk_score? with
  | none => .error "ip_risk_score"
  | some ir =>
  .ok
    ({ amount := a
       amount_log := a.map amount_log
       amount_sqrt := a.map amount_sqrt
       hour := ho.map (fun h => (h : ℝ))
       hour_sin := ho.map hour_sin
       hour_cos := ho.map hour_cos
       is_night := ho.map (fun h => ((is_night h : ℤ) : ℝ))
       is_business_hours := ho.map (fun h => ((is_business_hours h : ℤ) : ℝ))
       transaction_type_encoded := (le_fit_transform tt).map (fun n => (n : ℝ))
       merchant_category_encoded := (le_fit_transform mc).map (fun n => (n : ℝ))
       country_encoded := (le_fit_transform co).map (fun n => (n : ℝ))
       device_risk_score := dr
       ip_risk_score := ir
       risk_score_product := List.zipWith risk_score_product dr ir
       risk_score_avg := List.zipWith risk_score_avg dr ir
       risk_score_max := List.zipWith risk_score_max dr ir
       is_fraud? := df.is_fraud? },
     { transaction_type := fitClasses tt
       merchant_category := fitClasses mc
       country := fitClasses co })

/-- The fixed ordered list of the 16 selected feature names
(`feature_columns`, lines 123–147). -/
def feature_columns : List String :=
  ["amount", "amount_log", "amount_sqrt",
   "hour", "hour_sin", "hour_cos", "is_night", "is_business_hours",
   "transaction_type_encoded", "merchant_category_encoded", "country_encoded",
   "device_risk_score", "ip_risk_score",
   "risk_score_product", "risk_score_avg", "risk_score_max"]

/-- `df[feature_columns].values` (line 153), column-major: the 16 selected
feature columns in the `feature_columns` order. -/
def select_X (df : EngTable) : List (List ℝ) :=
  [df.amount, df.amount_log, df.amount_sqrt,
   df.hour, df.hour_sin, df.hour_cos, df.is_night, df.is_business_hours,
   df.transaction_type_encoded, df.merchant_category_encoded,
   df.country_encoded,
   df.device_risk_score, df.ip_risk_score,
   df.risk_score_product, df.risk_score_avg, df.risk_score_max]

/-- `prepare_features` (lines 116–159): selects the 16 feature columns,
reads the label column `is_fraud` (raising `KeyError` if absent) and returns
`(X, y, feature_columns)`. -/
def prepare_features (df : EngTable) :
    Except String (List (List ℝ) × List ℕ × List String) :=
  match df.is_fraud? with
  | none => .error "is_fraud"
  | some y => .ok (select_X df, y, feature_columns)

/-- Population mean of a feature column (`StandardScaler`'s `mean_` is the
per-column mean along axis 0). Division by zero (empty column) yields 0, as
in Mathlib's convention. -/
noncomputable def colMean (l : List ℝ) : ℝ := l.sum / (l.length : ℝ)

/-- Population variance of a feature column (`StandardScaler` uses `ddof = 0`). -/
noncomputable def colVar (l : List ℝ) : ℝ :=
  ((l.map (fun x => (x - colMean l) ^ 2)).sum) / (l.length : ℝ)

/-- sklearn's `_handle_zeros_in_scale`: a zero standard deviation is replaced
by 1 so that constant columns are not divided by zero. -/
noncomputable def handle_zeros_in_scale (s : ℝ) : ℝ := if s = 0 then 1 else s

/-- `StandardScaler`'s `scale_` for one column: the population standard
deviation, with zeros replaced by 1. -/
noncomputable def colScale (l : List ℝ) : ℝ :=
  handle_zeros_in_scale (Real.sqrt (colVar l))

/-- The fitted scaler: `mean_` and `scale_`, one entry per feature column. -/
structure ScalerParams where
  means : List ℝ
  stds : List ℝ

/-- `StandardScaler.fit` on a column-major feature matrix (line 358–359):
per-column mean and scale. -/
noncomputable def fitScaler (cols : List (List ℝ)) : ScalerParams :=
  { means := cols.map colMean, stds := cols.map colScale }

/-- `StandardScaler.transform` on one column with the given fitted mean and
scale: `(x - mean) / scale` elementwise. -/
noncomputable def transformCol (m s : ℝ) (l : List ℝ) : List ℝ :=
  l.map (fun x => (x - m) / s)

/-- `StandardScaler.transform` on a column-major matrix, using the fitted
parameters column by column. -/
noncomputable def transformScaler (p : ScalerParams) (cols : List (List ℝ)) :
    List (List ℝ) :=
  (cols.zip (p.means.zip p.stds)).map (fun c => transformCol c.2.1 c.2.2 c.1)

/-- The scaling step of `main` (lines 357–360): fit the scaler on the training
partition, transform the training partition with `fit_transform` and the test
partition with `transform`. Returns
`(X_train_scaled, X_test_scaled, scaler)`. -/
noncomputable def scaleStep (Xtr Xte : List (List ℝ)) :
    List (List ℝ) × List (List ℝ) × ScalerParams :=
  let p := fitScaler Xtr
  (transformScaler p Xtr, transformScaler p Xte, p)

/-- The `scaler_params` JSON document written by `save_scaler_and_model`
(lines 261–270): the scaler's means and scales plus the feature count. -/
structure ScalerParamsJson where
  means : List ℝ
  stds : List ℝ
  n_features : ℕ

/-- Construction of the `scaler_params` JSON record (lines 262–266). -/
noncomputable def save_scaler_params (p : ScalerParams) (fc : List String) :
    ScalerParamsJson :=
  { means := p.means, stds := p.stds, n_features := fc.length }

/-- The model-hyperparameter block of the metadata JSON (lines 277–282). -/
structure ModelConfig where
  n_estimators : ℕ
  max_depth : ℕ
  min_samples_split : ℕ
  min_samples_leaf : ℕ

/-- The metadata JSON document written by `save_scaler_and_model`
(lines 272–287). The `metrics` payload is carried as an abstract value of
type `M`; its contents are irrelevant to the claims. -/
structure Metadata (M : Type) where
  n_features : ℕ
  feature_names : List String
  metrics : M
  model_config : ModelConfig

/-- Construction of the metadata record from the feature-column list actually
passed to `save_scaler_and_model` (lines 273–283). -/
def save_metadata {M : Type} (fc : List String) (ms : M) : Metadata M :=
  { n_features := fc.length
    feature_names := fc
    metrics := ms
    model_config :=
      { n_estimators := N_ESTIMATORS
        max_depth := MAX_DEPTH
        min_samples_split := MIN_SAMPLES_SPLIT
        min_samples_leaf := MIN_SAMPLES_LEAF } }

/-- Environment of `convert_to_onnx` (lines 289–327): whether `skl2onnx` is
importable, and, for each of the three fallible operations inside the `try`
block (conversion, file serialization, model validation), the exception it
raises, if any. -/
structure OnnxEnv where
  onnx_available : Bool
  convert_error : Option String
  serialize_error : Option String
  check_error : Option String

/-- Body of the `try` block of `convert_to_onnx` (lines 300–324): runs the
conversion, the serialization and the validation in order; the first raised
exception propagates out of the body. -/
def onnx_body (env : OnnxEnv) : Except String Bool :=
  match env.convert_error with
  | some e => .error e
  | none =>
  match env.serialize_error with
  | some e => .error e
  | none =>
  match env.check_error with
  | some e => .error e
  | none => .ok true

/-- `convert_to_onnx` (lines 289–327): returns `False` immediately when the
converter library is unavailable; otherwise runs the body under
`try ... except Exception`, so any raised exception is caught and turned into
the return value `False`. -/
def convert_to_onnx (env : OnnxEnv) : Except String Bool :=
  if env.onnx_available then
    match onnx_body env with
    | .ok b => .ok b
    | .error _ => .ok false
  else
    .ok false

/-- Train/test row-index split produced by `train_test_split`. -/
structure SplitIdx where
  train : List ℕ
  test : List ℕ

/-- Row selection by index list, applied to one column. -/
def selectRows {α : Type} (idx : List ℕ) (c : List α) : List α :=
  idx.filterMap (fun i => c.get? i)

/-- Ambient randomness that seeded library routines would consult if no
explicit seed were passed (e.g. `random_state=None`). The script never lets
this happen: every seeded call receives the constant `RANDOM_STATE`. -/
structure AmbientRng where
  draws : ℕ → ℕ

/-- Effective seed of a seeded library call: the explicit seed when one is
passed, otherwise a draw of ambient randomness. -/
def effective_seed (s? : Option ℕ) (env : AmbientRng) : ℕ :=
  s?.getD (env.draws 0)

/-- The training pipeline of `main` (lines 329–374) up to the trained model,
parameterized by the deterministic seeded library routines it delegates to:
`splitter` models `train_test_split(X, y, test_size, random_state, stratify=y)`
returning row indices, and `trainer` models fitting the random-forest model on
the scaled training data with its seed. Returns the split, the fitted scaler
parameters and the trained model. -/
noncomputable def runPipeline {M : Type}
    (splitter : List (List ℝ) → List ℕ → ℚ → ℕ → SplitIdx)
    (trainer : List (List ℝ) → List ℕ → ℕ → M)
    (env : AmbientRng) (df : RawTable) :
    Except String (SplitIdx × ScalerParams × M) :=
  match feature_engineering df with
  | .error e => .error e
  | .ok efe =>
  match prepare_features efe.1 with
  | .error e => .error e
  | .ok Xy =>
  let X := Xy.1
  let y := Xy.2.1
  let idx := splitter X y TEST_SIZE (effective_seed (some RANDOM_STATE) env)
  let Xtr := X.map (selectRows idx.train)
  let p := fitScaler Xtr
  let m := trainer (transformScaler p Xtr) (selectRows idx.train y)
    (effective_seed (some RANDOM_STATE) env)
  .ok (idx, p, m)

/-- A concrete engineered table with one row, used as witness input. -/
noncomputable def engTbl0 : EngTable :=
  { amount := [0], amount_log := [0], amount_sqrt := [0], hour := [0]
    hour_sin := [0], hour_cos := [0], is_night := [0], is_business_hours := [0]
    transaction_type_encoded := [0], merchant_category_encoded := [0]
    country_encoded := [0], device_risk_score := [0], ip_risk_score := [0]
    risk_score_product := [0], risk_score_avg := [0], risk_score_max := [0]
    is_fraud? := some [1] }

/-- A concrete raw table with every column absent. -/
def emptyTbl : RawTable :=
  { amount? := none, hour? := none, transaction_type? := none
    merchant_category? := none, country? := none, device_risk_score? := none
    ip_risk_score? := none, is_fraud? := none }

/-- A concrete raw table with one row that has every raw column the feature
engineering step reads, but no `is_fraud` column. -/
noncomputable def tblNoFraud : RawTable :=
  { amount? := some [10], hour? := some [3]
    transaction_type? := some ["online"], merchant_category? := some ["food"]
    country? := some ["TN"], device_risk_score? := some [0]
    ip_risk_score? := some [1], is_fraud? := none }

/-! ### Helper lemmas about list sums and the scaler embedding -/

theorem sum_map_div (l : List ℝ) (f : ℝ → ℝ) (c : ℝ) :
    (l.map (fun x => f x / c)).sum = (l.map f).sum / c := by
  induction l with
  | nil => simp
  | cons a t ih => simp [ih, add_div]

theorem sum_map_sub (l : List ℝ) (m : ℝ) :
    (l.map (fun x => x - m)).sum = l.sum - (l.length : ℝ) * m := by
  induction l with
  | nil => simp
  | cons a t ih =>
    simp only [List.map_cons, List.sum_cons, List.length_cons, ih]
    push_cast
    ring

theorem sum_nonneg_list (l : List ℝ) (h : ∀ x ∈ l, 0 ≤ x) : 0 ≤ l.sum := by
  induction l with
  | nil => simp
  | cons a t ih =>
    simp only [List.sum_cons]
    have ha := h a (List.mem_cons_self a t)
    have ht := ih (fun x hx => h x (List.mem_cons_of_mem a hx))
    linarith

theorem colVar_nonneg (l : List ℝ) : 0 ≤ colVar l := by
  unfold colVar
  apply div_nonneg
  · apply sum_nonneg_list
    intro x hx
    obtain ⟨y, _, rfl⟩ := List.mem_map.mp hx
    positivity
  · positivity

theorem length_ne_zero_real (l : List ℝ) (hne : l ≠ []) :
    (l.length : ℝ) ≠ 0 := by
  cases l with
  | nil => exact absurd rfl hne
  | cons a t => exact Nat.cast_ne_zero.mpr (by simp)

theorem colMean_transformCol (l : List ℝ) (s : ℝ) :
    colMean (transformCol (colMean l) s l) = 0 := by
  rcases eq_or_ne l [] with rfl | hne
  · simp [colMean, transformCol]
  · have hn := length_ne_zero_real l hne
    unfold colMean transformCol
    rw [List.length_map, sum_map_div, sum_map_sub]
    have h1 : l.sum - (l.length : ℝ) * (l.sum / (l.length : ℝ)) = 0 := by
      field_simp
    rw [h1, zero_div, zero_div]

theorem colScale_of_var_ne (l : List ℝ) (hv : colVar l ≠ 0) :
    colScale l = Real.sqrt (colVar l) ∧ Real.sqrt (colVar l) ≠ 0 := by
  have hpos : 0 < colVar l := lt_of_le_of_ne (colVar_nonneg l) (Ne.symm hv)
  have hs : Real.sqrt (colVar l) ≠ 0 := ne_of_gt (Real.sqrt_pos.mpr hpos)
  exact ⟨by simp [colScale, handle_zeros_in_scale, hs], hs⟩

theorem colVar_transformCol (l : List ℝ) (hne : l ≠ []) (hv : colVar l ≠ 0) :
    colVar (transformCol (colMean l) (colScale l) l) = 1 := by
  obtain ⟨hsc, hs0⟩ := colScale_of_var_ne l hv
  have hn := length_ne_zero_real l hne
  have hmean := colMean_transformCol l (colScale l)
  have hsq : Real.sqrt (colVar l) ^ 2 = colVar l :=
    Real.sq_sqrt (colVar_nonneg l)
  unfold colVar
  rw [hmean]
  unfold transformCol
  rw [List.length_map, List.map_map]
  have harg :
      ((fun x => (x - 0) ^ 2) ∘ fun x => (x - colMean l) / colScale l) =
        fun x => ((x - colMean l) ^ 2) / colScale l ^ 2 := by
    funext x
    simp [Function.comp, div_pow]
  rw [harg, sum_map_div]
  have hsum : (l.map (fun x => (x - colMean l) ^ 2)).sum =
      colVar l * (l.length : ℝ) := by
    unfold colVar
    field_simp
  rw [hsum, hsc, hsq]
  field_simp

/-! ### Helper lemmas about the label-encoder embedding -/

theorem mem_insSorted (a s : String) (t : List String) :
    a ∈ insSorted s t ↔ a = s ∨ a ∈ t := by
  induction t with
  | nil => simp [insSorted]
  | cons c cs ih =>
    by_cases hsc : s ≤ c
    · simp [insSorted, hsc]
    · simp [insSorted, hsc, ih]
      tauto

theorem mem_sortStrings (a : String) (t : List String) :
    a ∈ sortStrings t ↔ a ∈ t := by
  induction t with
  | nil => simp [sortStrings]
  | cons c cs ih => simp [sortStrings, mem_insSorted, ih]

theorem mem_fitClasses (a : String) (col : List String) :
    a ∈ fitClasses col ↔ a ∈ col := by
  simp [fitClasses, mem_sortStrings, List.mem_dedup]

theorem findIdx2_some_of_mem (s : String) (t : List String) (h : s ∈ t) :
    ∃ i, findIdx2 s t = some i := by
  induction t with
  | nil => simp at h
  | cons c cs ih =>
    by_cases hcs : c = s
    · exact ⟨0, by simp [findIdx2, hcs]⟩
    · have hmem : s ∈ cs := by
        rcases List.mem_cons.mp h with h1 | h1
        · exact absurd h1.symm hcs
        · exact h1
      obtain ⟨i, hi⟩ := ih hmem
      exact ⟨i + 1, by simp [findIdx2, hcs, hi]⟩

theorem findIdx2_none_of_not_mem (s : String) (t : List String) (h : s ∉ t) :
    findIdx2 s t = none := by
  induction t with
  | nil => rfl
  | cons c cs ih =>
    have hcs : ¬ c = s := fun hc => h (hc ▸ List.mem_cons_self c cs)
    have hcs2 : s ∉ cs := fun hm => h (List.mem_cons_of_mem c hm)
    simp [findIdx2, hcs, ih hcs2]

theorem nth_of_findIdx2 (s : String) (t : List String) (i : ℕ)
    (h : findIdx2 s t = some i) : nth t i = some s := by
  induction t generalizing i with
  | nil => simp [findIdx2] at h
  | cons c cs ih =>
    by_cases hcs : c = s
    · simp [findIdx2, hcs] at h
      subst h
      simp [nth, hcs]
    · simp [findIdx2, hcs] at h
      obtain ⟨j, hj, hij⟩ := h
      subst hij
      simpa [nth] using ih j hj

/-! ### Claim theorems -/

/-- Claim C1: the ordered list of 16 feature names returned by
`prepare_features` (and used to build the training matrix) is identical,
element for element and in the same order, to the `feature_names` list that
`save_scaler_and_model` writes into the metadata JSON document from the same
list. -/
theorem claim_C1 {M : Type} (df : EngTable) (X : List (List ℝ)) (y : List ℕ)
    (fc : List String) (ms : M)
    (h : prepare_features df = .ok (X, y, fc)) :
    (save_metadata fc ms).feature_names = fc ∧ fc = feature_columns ∧
      feature_columns.length = 16 := by
  refine ⟨rfl, ?_, rfl⟩
  cases hf : df.is_fraud? with
  | none => simp [prepare_features, hf] at h
  | some y0 =>
    simp [prepare_features, hf] at h
    exact h.2.2.symm

/-- Witness for C1 at a concrete one-row engineered table. -/
theorem claim_C1_witness :
    prepare_features engTbl0 = .ok (select_X engTbl0, [1], feature_columns) ∧
    ((save_metadata feature_columns ()).feature_names = feature_columns ∧
      feature_columns = feature_columns ∧ feature_columns.length = 16) :=
  ⟨rfl, claim_C1 engTbl0 (select_X engTbl0) [1] feature_columns () rfl⟩

/-- Claim C2: `convert_to_onnx` never propagates an exception: it always
returns a boolean; when the converter library is unavailable it returns
`False` without attempting conversion, and any exception raised by the
conversion, serialization or validation steps is caught and turned into the
return value `False` (a fully successful body returns `True`). -/
theorem claim_C2 (env : OnnxEnv) :
    (∃ b, convert_to_onnx env = .ok b) ∧
    (env.onnx_available = false → convert_to_onnx env = .ok false) ∧
    ((env.convert_error ≠ none ∨ env.serialize_error ≠ none ∨
        env.check_error ≠ none) → convert_to_onnx env = .ok false) ∧
    (env.onnx_available = true ∧ env.convert_error = none ∧
        env.serialize_error = none ∧ env.check_error = none →
      convert_to_onnx env = .ok true) := by
  obtain ⟨av, ce, se, ke⟩ := env
  cases av <;> cases ce <;> cases se <;> cases ke <;>
    simp [convert_to_onnx, onnx_body]

/-- Witness for C2: the library-unavailable case, a failing conversion, and a
fully successful conversion. -/
theorem claim_C2_witness :
    convert_to_onnx (OnnxEnv.mk false none none none) = .ok false ∧
    convert_to_onnx (OnnxEnv.mk true (some "boom") none none) = .ok false ∧
    convert_to_onnx (OnnxEnv.mk true none none none) = .ok true :=
  ⟨(claim_C2 (OnnxEnv.mk false none none none)).2.1 rfl,
   (claim_C2 (OnnxEnv.mk true (some "boom") none none)).2.2.1
     (Or.inl (by simp)),
   (claim_C2 (OnnxEnv.mk true none none none)).2.2.2 ⟨rfl, rfl, rfl, rfl⟩⟩

/-- Claim C3: for every input row (with an hour-of-day value, i.e.
`0 ≤ hour`), the derived columns are the stated pure functions of the raw
columns. -/
theorem claim_C3 (a d i : ℝ) (h : ℤ) (hh : 0 ≤ h) :
    amount_log a = Real.log (1 + a) ∧
    amount_sqrt a = Real.sqrt a ∧
    hour_sin h = Real.sin (2 * Real.pi * (h : ℝ) / 24) ∧
    hour_cos h = Real.cos (2 * Real.pi * (h : ℝ) / 24) ∧
    is_night h = (if h ≤ 6 ∨ 22 ≤ h then 1 else 0) ∧
    is_business_hours h = (if 9 ≤ h ∧ h ≤ 17 then 1 else 0) ∧
    risk_score_product d i = d * i ∧
    risk_score_avg d i = (d + i) / 2 ∧
    risk_score_max d i = max d i := by
  refine ⟨rfl, rfl, rfl, rfl, ?_, rfl, rfl, rfl, rfl⟩
  unfold is_night
  split_ifs <;> omega

/-- Witness for C3 at a concrete row. -/
theorem claim_C3_witness :
    (0 : ℤ) ≤ 5 ∧
    (amount_log 1 = Real.log (1 + 1) ∧
     amount_sqrt 1 = Real.sqrt 1 ∧
     hour_sin 5 = Real.sin (2 * Real.pi * ((5 : ℤ) : ℝ) / 24) ∧
     hour_cos 5 = Real.cos (2 * Real.pi * ((5 : ℤ) : ℝ) / 24) ∧
     is_night 5 = (if (5 : ℤ) ≤ 6 ∨ 22 ≤ (5 : ℤ) then 1 else 0) ∧
     is_business_hours 5 = (if 9 ≤ (5 : ℤ) ∧ (5 : ℤ) ≤ 17 then 1 else 0) ∧
     risk_score_product 2 3 = 2 * 3 ∧
     risk_score_avg 2 3 = (2 + 3) / 2 ∧
     risk_score_max 2 3 = max 2 3) :=
  ⟨by decide, claim_C3 1 2 3 5 (by decide)⟩

/-- Claim C4: each category encoder round-trips — decoding the index assigned
to a category observed at fit time returns the original string — and
transforming a category unseen at fit time raises a defined error rather than
returning an index. -/
theorem claim_C4 (col : List String) (s : String) :
    (s ∈ col → ∃ i, le_transform (fitClasses col) s = .ok i ∧
      le_inverse_transform (fitClasses col) i = some s) ∧
    (s ∉ col → le_transform (fitClasses col) s = .error "unseen label") := by
  constructor
  · intro hmem
    have hm2 : s ∈ fitClasses col := (mem_fitClasses s col).mpr hmem
    obtain ⟨i, hi⟩ := findIdx2_some_of_mem s (fitClasses col) hm2
    refine ⟨i, by simp [le_transform, hi], ?_⟩
    simpa [le_inverse_transform] using nth_of_findIdx2 s (fitClasses col) i hi
  · intro hnm
    have hm2 : s ∉ fitClasses col := fun hm => hnm ((mem_fitClasses s col).mp hm)
    simp [le_transform, findIdx2_none_of_not_mem s (fitClasses col) hm2]

/-- Witness for C4: round-trip of an observed category and rejection of an
unseen one, on a concrete fitted column. -/
theorem claim_C4_witness :
    (∃ i, le_transform (fitClasses ["b", "a"]) "a" = .ok i ∧
      le_inverse_transform (fitClasses ["b", "a"]) i = some "a") ∧
    le_transform (fitClasses ["b", "a"]) "zz" = .error "unseen label" :=
  ⟨(claim_C4 ["b", "a"] "a").1 (by simp),
   (claim_C4 ["b", "a"] "zz").2 (by simp)⟩

/-- Claim C5: the scaling step fits the scaler on the training partition only
and transforms the test partition with exactly those training-derived
statistics; the fitted parameters (and the scaled training data) do not
depend on the test partition at all. -/
theorem claim_C5 (Xtr Xte Xte2 : List (List ℝ)) :
    (scaleStep Xtr Xte).2.2 = fitScaler Xtr ∧
    (scaleStep Xtr Xte).2.1 = transformScaler (fitScaler Xtr) Xte ∧
    (scaleStep Xtr Xte).1 = transformScaler (fitScaler Xtr) Xtr ∧
    (scaleStep Xtr Xte).2.2 = (scaleStep Xtr Xte2).2.2 ∧
    (scaleStep Xtr Xte).1 = (scaleStep Xtr Xte2).1 :=
  ⟨rfl, rfl, rfl, rfl, rfl⟩

/-- Claim C6 (amended): a table lacking any of the seven raw columns that
`feature_engineering` actually reads fails fast with an error naming a
missing column; the label column `is_fraud` is not among them (see the
counterexample). -/
theorem claim_C6 (t : RawTable)
    (h : t.amount? = none ∨ t.hour? = none ∨ t.transaction_type? = none ∨
      t.merchant_category? = none ∨ t.country? = none ∨
      t.device_risk_score? = none ∨ t.ip_risk_score? = none) :
    ∃ e, feature_engineering t = .error e ∧
      e ∈ ["amount", "hour", "transaction_type", "merchant_category",
           "country", "device_risk_score", "ip_risk_score"] := by
  obtain ⟨a?, ho?, tt?, mc?, co?, dr?, ir?, f?⟩ := t
  rcases a? with _ | a
  · exact ⟨"amount", rfl, by simp⟩
  rcases ho? with _ | ho
  · exact ⟨"hour", rfl, by simp⟩
  rcases tt? with _ | tt
  · exact ⟨"transaction_type", rfl, by simp⟩
  rcases mc? with _ | mc
  · exact ⟨"merchant_category", rfl, by simp⟩
  rcases co? with _ | co
  · exact ⟨"country", rfl, by simp⟩
  rcases dr? with _ | dr
  · exact ⟨"device_risk_score", rfl, by simp⟩
  rcases ir? with _ | ir
  · exact ⟨"ip_risk_score", rfl, by simp⟩
  simp at h

/-- Witness for C6 at the table with every column absent. -/
theorem claim_C6_witness :
    ∃ e, feature_engineering emptyTbl = .error e ∧
      e ∈ ["amount", "hour", "transaction_type", "merchant_category",
           "country", "device_risk_score", "ip_risk_score"] :=
  claim_C6 emptyTbl (Or.inl rfl)

/-- Counterexample to C6 as stated: a table that lacks only the required
column `is_fraud` is not rejected by `feature_engineering` — the function
never reads that column, so it succeeds. -/
theorem claim_C6_counterexample :
    (∃ r, feature_engineering tblNoFraud = .ok r) ∧
    tblNoFraud.is_fraud? = none :=
  ⟨⟨_, rfl⟩, rfl⟩

/-- Claim C7: the pipeline is deterministic — every seeded library call
receives the fixed constants (`test_size = 0.2`, `random_state = 42`), so two
runs differing only in the ambient randomness the libraries would otherwise
draw from produce identical splits, scaler parameters and trained models. -/
theorem claim_C7 {M : Type}
    (splitter : List (List ℝ) → List ℕ → ℚ → ℕ → SplitIdx)
    (trainer : List (List ℝ) → List ℕ → ℕ → M)
    (df : RawTable) (e1 e2 : AmbientRng) :
    runPipeline splitter trainer e1 df = runPipeline splitter trainer e2 df ∧
    effective_seed (some RANDOM_STATE) e1 = RANDOM_STATE ∧
    RANDOM_STATE = 42 ∧ TEST_SIZE = 1 / 5 :=
  ⟨rfl, rfl, rfl, by norm_num [TEST_SIZE]⟩

/-- Claim C9: the derived flags are mutually exclusive on hour-of-day values:
for every hour in 0..23 at most one of `is_night` and `is_business_hours`
is 1. -/
theorem claim_C9 (h : ℤ) (h0 : 0 ≤ h) (h23 : h ≤ 23) :
    is_night h = 0 ∨ is_business_hours h = 0 := by
  unfold is_night is_business_hours
  split_ifs <;> omega

/-- Witness for C9 at noon. -/
theorem claim_C9_witness :
    ((0 : ℤ) ≤ 12 ∧ (12 : ℤ) ≤ 23) ∧
    (is_night 12 = 0 ∨ is_business_hours 12 = 0) :=
  ⟨by decide, claim_C9 12 (by decide) (by decide)⟩

/-- Claim C10: the scaler-parameters JSON record built from the pipeline's
training matrix is internally consistent: the `means` and `stds` lists each
have length equal to the `n_features` field, which equals the length of the
selected feature-column list, 16. -/
theorem claim_C10 (df : EngTable) (idx : List ℕ) :
    (save_scaler_params (fitScaler ((select_X df).map (selectRows idx)))
        feature_columns).means.length =
      (save_scaler_params (fitScaler ((select_X df).map (selectRows idx)))
        feature_columns).n_features ∧
    (save_scaler_params (fitScaler ((select_X df).map (selectRows idx)))
        feature_columns).stds.length =
      (save_scaler_params (fitScaler ((select_X df).map (selectRows idx)))
        feature_columns).n_features ∧
    (save_scaler_params (fitScaler ((select_X df).map (selectRows idx)))
        feature_columns).n_features = feature_columns.length ∧
    feature_columns.length = 16 := by
  refine ⟨?_, ?_, rfl, rfl⟩ <;>
    simp [save_scaler_params, fitScaler, select_X, feature_columns]

/-- Claim C8 (amended): after the scaler fitted on a training column is
applied to that same column, the standardized column has mean exactly 0 —
for every column, constant ones included — and, provided the column is
nonempty and has nonzero variance, standard deviation exactly 1. (A constant
column is scaled with divisor 1 by sklearn's zero-variance handling and its
standardized version has standard deviation 0; see the counterexample.) -/
theorem claim_C8 (l : List ℝ) :
    colMean (transformCol (colMean l) (colScale l) l) = 0 ∧
    (l ≠ [] → colVar l ≠ 0 →
      Real.sqrt (colVar (transformCol (colMean l) (colScale l) l)) = 1) := by
  refine ⟨colMean_transformCol l (colScale l), fun hne hv => ?_⟩
  rw [colVar_transformCol l hne hv, Real.sqrt_one]

/-- Variance of the concrete column `[0, 2]`, used by the C8 witness. -/
theorem colVar_zero_two : colVar [(0 : ℝ), 2] = 1 := by
  have hm : colMean [(0 : ℝ), 2] = 1 := by
    norm_num [colMean]
  norm_num [colVar, hm]

/-- Witness for C8 on the concrete nonconstant training column `[0, 2]`:
applies the unconditional mean-zero conjunct and discharges the nonemptiness
and nonzero-variance hypotheses of the standard-deviation conjunct. -/
theorem claim_C8_witness :
    colMean (transformCol (colMean [(0 : ℝ), 2]) (colScale [(0 : ℝ), 2])
        [(0 : ℝ), 2]) = 0 ∧
    (([(0 : ℝ), 2] ≠ []) ∧ colVar [(0 : ℝ), 2] ≠ 0) ∧
    Real.sqrt (colVar (transformCol (colMean [(0 : ℝ), 2])
        (colScale [(0 : ℝ), 2]) [(0 : ℝ), 2])) = 1 :=
  ⟨(claim_C8 [(0 : ℝ), 2]).1,
   ⟨by simp, by rw [colVar_zero_two]; norm_num⟩,
   (claim_C8 [(0 : ℝ), 2]).2 (by simp) (by rw [colVar_zero_two]; norm_num)⟩

/-- Counterexample to C8 as stated: on the constant training column
`[1, 1]` the fitted scaler (mean 1, scale 1 after zero-variance handling)
standardizes the column to `[0, 0]`, whose standard deviation is 0, not
approximately 1. -/
theorem claim_C8_counterexample :
    transformCol (colMean [(1 : ℝ), 1]) (colScale [(1 : ℝ), 1])
        [(1 : ℝ), 1] = [0, 0] ∧
    Real.sqrt (colVar [(0 : ℝ), 0]) = 0 ∧ (0 : ℝ) ≠ 1 := by
  have hm : colMean [(1 : ℝ), 1] = 1 := by
    norm_num [colMean]
  have hv : colVar [(1 : ℝ), 1] = 0 := by
    norm_num [colVar, hm]
  have hs : colScale [(1 : ℝ), 1] = 1 := by
    simp [colScale, hv, Real.sqrt_zero, handle_zeros_in_scale]
  have hv0 : colVar [(0 : ℝ), 0] = 0 := by
    norm_num [colVar, colMean]
  refine ⟨?_, ?_, by norm_num⟩
  · simp [transformCol, hm, hs]
  · rw [hv0, Real.sqrt_zero]

end FraudTrain
